import Mathlib

set_option maxRecDepth 4000

/-!
Shallow embedding of src/src/app/service/browser-compatibility.module.ts
(detection-browser repository).  JavaScript strings are Lean Strings,
numbers arising from parseInt over digit-only fragments are Int,
nullable values are Option, and the single navigation side effect of a
compatibility pass is reified as an optional navigation request.
-/

namespace BrowserCompat

/-- The SupportedBrowser enumeration of the source module. -/
inductive SupportedBrowser where
  | CHROME
  | FIREFOX
  | SAFARI
  | EDGE
  | SAMSUNG
  | LINE
  | UNKNOWN
deriving DecidableEq, Repr

/-- The Platform enumeration of the source module. -/
inductive Platform where
  | DESKTOP
  | MOBILE
  | UNKNOWN
deriving DecidableEq, Repr

/-- The supportedVersions record of BrowserCompatibilityConfig: exactly the
five configured kinds, each with a version-constraint string. -/
structure SupportedVersions where
  chrome : String
  firefox : String
  safari : String
  edge : String
  samsung : String
deriving DecidableEq, Repr

/-- BrowserCompatibilityConfig of the source module. -/
structure BrowserCompatibilityConfig where
  enabled : Bool
  supportedVersions : SupportedVersions
deriving DecidableEq, Repr

/-- Does the character list s start with the character list pat?
Models the leading part of a JavaScript substring test. -/
def listHasPre : List Char → List Char → Bool
  | [], _ => true
  | _ :: _, [] => false
  | p :: ps, c :: cs => p == c && listHasPre ps cs

/-- Substring search over character lists: does pat occur in s? -/
def subSearch (pat : List Char) : List Char → Bool
  | [] => listHasPre pat []
  | c :: cs => listHasPre pat (c :: cs) || subSearch pat cs

/-- JavaScript String.prototype.includes (and a non-negative result of
String.prototype.search on a literal pattern): pat occurs in s. -/
def containsSub (s pat : String) : Bool := subSearch pat.data s.data

/-- ASCII lowering of one character, as toLowerCase acts on the ASCII
range (the brand and platform names the module inspects are ASCII). -/
def lowerChar (c : Char) : Char :=
  if 65 ≤ c.toNat ∧ c.toNat ≤ 90 then Char.ofNat (c.toNat + 32) else c

/-- JavaScript String.prototype.toLowerCase over ASCII text. -/
def lowerStr (s : String) : String := String.mk (s.data.map lowerChar)

/-- Splitting on the dot separator, as the JavaScript split method with
a one-character separator: empty input gives one empty fragment, and
adjacent separators give empty fragments. -/
def splitOnDotAux : List Char → List Char → List String
  | [], acc => [String.mk acc.reverse]
  | c :: cs, acc =>
    if c == '.' then String.mk acc.reverse :: splitOnDotAux cs []
    else splitOnDotAux cs (c :: acc)

/-- JavaScript split on a dot. -/
def splitOnDot (s : String) : List String := splitOnDotAux s.data []

/-- The decimal value of a digit list, as parseInt reads a string of
decimal digits. -/
def digitsToNat (l : List Char) : Nat :=
  l.foldl (fun n c => n * 10 + (c.toNat - 48)) 0

/-- parseVersion of the source: split on a dot, strip non-digit
characters from each fragment (the replace of the source), parseInt,
and map the NaN of an empty fragment to 0.  No padding or truncation
happens here. -/
def parseVersion (version : String) : List Int :=
  (splitOnDot version).map fun v =>
    let digits := v.data.filter Char.isDigit
    if digits.isEmpty then 0 else (digitsToNat digits : Int)

/-- The while loops of compareVersions: push zeros until the length is
at least three. -/
def padTo3 (l : List Int) : List Int := l ++ List.replicate (3 - l.length) 0

/-- The at-least comparison of compareVersions (its case for the
operator string of a greater-or-equal marker). -/
def compareAtLeast (curMajor curMinor curPatch minMajor minMinor minPatch : Int) : Bool :=
  if curMajor > minMajor then true
  else if curMajor < minMajor then false
  else if curMinor > minMinor then true
  else if curMinor < minMinor then false
  else decide (curPatch ≥ minPatch)

/-- compareVersions of the source: pad both lists to three components,
destructure the first three, and branch on the operator string.  The
default case of the source calls itself again with the at-least
operator; that recursive call is inlined as compareAtLeast here. -/
def compareVersions (current minimum : List Int) (operator : String) : Bool :=
  let c := padTo3 current
  let m := padTo3 minimum
  let curMajor := c.getD 0 0
  let curMinor := c.getD 1 0
  let curPatch := c.getD 2 0
  let minMajor := m.getD 0 0
  let minMinor := m.getD 1 0
  let minPatch := m.getD 2 0
  if operator == ">=" then
    compareAtLeast curMajor curMinor curPatch minMajor minMinor minPatch
  else if operator == "^" then
    if curMajor ≠ minMajor then decide (curMajor > minMajor)
    else if curMinor > minMinor then true
    else if curMinor < minMinor then false
    else decide (curPatch ≥ minPatch)
  else if operator == "~" then
    if curMajor ≠ minMajor || curMinor ≠ minMinor then
      decide (curMajor > minMajor) || (curMajor == minMajor && decide (curMinor > minMinor))
    else decide (curPatch ≥ minPatch)
  else
    compareAtLeast curMajor curMinor curPatch minMajor minMinor minPatch

/-- cleanVersion of the source: empty input becomes the zero version, a
leading letter v is dropped, and the dot-separated fragments are padded
with zero fragments and truncated to exactly three. -/
def cleanVersion (version : String) : String :=
  if version.isEmpty then "0.0.0"
  else
    let cleaned := if version.startsWith "v" then version.drop 1 else version
    let parts := splitOnDot cleaned
    let padded := parts ++ List.replicate (3 - parts.length) "0"
    String.intercalate "." (padded.take 3)

/-- The operator-stripping chain of isVersionSupported: a leading
greater-or-equal marker, a leading caret, or a leading or trailing
tilde is removed (trimming after), and the operator defaults to the
at-least marker. -/
def stripOperator (m : String) : String × String :=
  if m.startsWith ">=" then (">=", ((m.drop 2).trim))
  else if m.startsWith "^" then ("^", ((m.drop 1).trim))
  else if m.startsWith "~" then ("~", ((m.drop 1).trim))
  else if m.endsWith "~" then ("~", ((m.dropRight 1).trim))
  else (">=", m)

/-- The body of the try block of isVersionSupported: clean the current
version, trim the minimum, strip the operator, parse both and compare. -/
def isVersionSupportedCore (currentVersion minimumVersion : String) : Bool :=
  let cleanCurrentVersion := cleanVersion currentVersion
  let m0 := minimumVersion.trim
  let om := stripOperator m0
  compareVersions (parseVersion cleanCurrentVersion) (parseVersion om.2) om.1

/-- The try/catch shape of isVersionSupported: an empty (falsy) minimum
is supported outright; otherwise the fallible body runs, and a thrown
error is caught and resolved as supported. -/
def isVersionSupportedWith (body : String → String → Except String Bool)
    (currentVersion minimumVersion : String) : Bool :=
  if minimumVersion.isEmpty then true
  else
    match body currentVersion minimumVersion with
    | .error _ => true
    | .ok b => b

/-- isVersionSupported of the source, as the catch-all wrapper around
the (in this embedding total, hence never-throwing) comparison body. -/
def isVersionSupported (currentVersion minimumVersion : String) : Bool :=
  isVersionSupportedWith (fun c m => Except.ok (isVersionSupportedCore c m))
    currentVersion minimumVersion

/-- The navigator.userAgentData object, when the host exposes it:
an optional brands array of brand/version pairs, an optional platform
name and an optional boolean mobile flag. -/
structure UAData where
  brands : Option (List (String × String))
  platform : Option String
  mobile : Option Bool
deriving Repr

/-- The current location, structured: origin, path and the query
parameters as an ordered key/value list.  Percent-encoding is not
modelled; names and values are taken verbatim. -/
structure Url where
  origin : String
  path : String
  query : List (String × String)
deriving DecidableEq, Repr

/-- The read-only environment signals the service consumes: the current
location, the user-agent string and the optional userAgentData. -/
structure Env where
  url : Url
  userAgent : String
  uad : Option UAData
deriving Repr

/-- The search part of a URL: empty when there are no parameters,
otherwise a question mark followed by ampersand-joined key=value
pairs. -/
def renderQuery (q : List (String × String)) : String :=
  match q with
  | [] => ""
  | _ => "?" ++ String.intercalate "&" (q.map fun p => p.1 ++ "=" ++ p.2)

/-- URL.toString / location.href of the structured location. -/
def urlToString (u : Url) : String := u.origin ++ u.path ++ renderQuery u.query

/-- searchParams.has: some query parameter has the given name. -/
def searchParamsHas (u : Url) (key : String) : Bool :=
  u.query.any fun p => p.1 == key

/-- URLSearchParams.set when the name is present: the first occurrence
receives the new value and later occurrences are removed. -/
def setFirstDropRest (key value : String) : List (String × String) → List (String × String)
  | [] => []
  | p :: rest =>
    if p.1 == key then (key, value) :: rest.filter (fun q => q.1 != key)
    else p :: setFirstDropRest key value rest

/-- searchParams.set: overwrite the parameter when present, append it
otherwise. -/
def searchParamsSet (u : Url) (key value : String) : Url :=
  if u.query.any (fun p => p.1 == key) then
    { u with query := setFirstDropRest key value u.query }
  else
    { u with query := u.query ++ [(key, value)] }

/-- Greedy consumption of leading decimal digits, with the rest. -/
def digitsTake : List Char → List Char × List Char
  | [] => ([], [])
  | c :: cs =>
    if c.isDigit then
      let dr := digitsTake cs
      (c :: dr.1, dr.2)
    else ([], c :: cs)

/-- Match n dot-separated one-or-more-digit groups at the head of the
input, returning the matched text (the capture group of the version
regular expressions). -/
def matchNumGroups : Nat → List Char → Option (List Char)
  | 0, _ => some []
  | 1, s =>
    let dr := digitsTake s
    if dr.1.isEmpty then none else some dr.1
  | n + 2, s =>
    let dr := digitsTake s
    if dr.1.isEmpty then none
    else
      match dr.2 with
      | '.' :: r2 =>
        match matchNumGroups (n + 1) r2 with
        | some rest => some (dr.1 ++ '.' :: rest)
        | none => none
      | _ => none

/-- Try the version pattern at the current position: the literal
pattern text followed by the digit groups. -/
def matchVersionAt (pre : List Char) (groups : Nat) (s : List Char) : Option (List Char) :=
  if listHasPre pre s then matchNumGroups groups (s.drop pre.length) else none

/-- Scan left to right for the first position where the version
pattern matches, as the match method of a JavaScript string does. -/
def scanVersion (pre : List Char) (groups : Nat) : List Char → Option (List Char)
  | [] => matchVersionAt pre groups []
  | c :: rest =>
    match matchVersionAt pre groups (c :: rest) with
    | some cap => some cap
    | none => scanVersion pre groups rest

/-- userAgent.match against a pattern of the form literal text followed
by groups dot-separated digit runs; the capture group, or none. -/
def matchVer (pre : String) (groups : Nat) (ua : String) : Option String :=
  (scanVersion pre.data groups ua.data).map fun cap => String.mk cap

/-- The customVersionProcessor of the Safari, Firefox and Samsung
detectors: a two-group match gains a zero patch, no match yields the
zero version. -/
def twoPartVersion (m : Option String) : String :=
  match m with
  | some v => v ++ ".0"
  | none => "0.0.0"

/-- Condition of the LINE detector. -/
def lineCond (ua : String) : Bool :=
  (containsSub ua "Chrome" || containsSub ua "Safari") &&
  !containsSub ua "Edg" && !containsSub ua "OPR" &&
  !containsSub ua "SamsungBrowser" && !containsSub ua "Brave" &&
  containsSub ua "Line"

/-- Condition of the Safari detector. -/
def safariCond (ua : String) : Bool :=
  containsSub ua "Safari" && !containsSub ua "Chrome"

/-- Condition of the Chrome detector. -/
def chromeCond (ua : String) : Bool :=
  containsSub ua "Chrome" &&
  !containsSub ua "Edg" && !containsSub ua "OPR" &&
  !containsSub ua "SamsungBrowser" && !containsSub ua "Brave"

/-- Condition of the Edge detector. -/
def edgeCond (ua : String) : Bool := containsSub ua "Edg/"

/-- Condition of the Firefox detector. -/
def firefoxCond (ua : String) : Bool := containsSub ua "Firefox"

/-- Condition of the Samsung detector. -/
def samsungCond (ua : String) : Bool := containsSub ua "SamsungBrowser"

/-- detectBrowser of the source: the ordered detector table, first
matching condition wins; the version comes from the detector's pattern
or is the zero version when the pattern finds no match. -/
def detectBrowser (ua : String) : SupportedBrowser × String :=
  if lineCond ua then
    (SupportedBrowser.LINE, (matchVer "Line/" 3 ua).getD "0.0.0")
  else if safariCond ua then
    (SupportedBrowser.SAFARI, twoPartVersion (matchVer "Version/" 2 ua))
  else if chromeCond ua then
    (SupportedBrowser.CHROME, (matchVer "Chrome/" 3 ua).getD "0.0.0")
  else if edgeCond ua then
    (SupportedBrowser.EDGE, (matchVer "Edg/" 3 ua).getD "0.0.0")
  else if firefoxCond ua then
    (SupportedBrowser.FIREFOX, twoPartVersion (matchVer "Firefox/" 2 ua))
  else if samsungCond ua then
    (SupportedBrowser.SAMSUNG, twoPartVersion (matchVer "SamsungBrowser/" 2 ua))
  else
    (SupportedBrowser.UNKNOWN, "0.0.0")

/-- detectPlatform of the source, including its duplicated Linux test. -/
def detectPlatform (userAgent : String) : Platform :=
  if containsSub userAgent "Windows" || containsSub userAgent "Linux" ||
     containsSub userAgent "Macintosh" || containsSub userAgent "Mac OS" ||
     containsSub userAgent "Linux" then
    Platform.DESKTOP
  else if containsSub userAgent "Mobile" || containsSub userAgent "Tablet" ||
     containsSub userAgent "Android" || containsSub userAgent "iPhone" ||
     containsSub userAgent "iPad" then
    Platform.MOBILE
  else
    Platform.UNKNOWN

/-- The mobile-flag fallback inside detectPlatformFromClientHints. -/
def mobileFlagPlatform (d : UAData) : Option Platform :=
  match d.mobile with
  | some b => some (if b then Platform.MOBILE else Platform.DESKTOP)
  | none => none

/-- detectPlatformFromClientHints of the source: a truthy platform name
is inspected case-insensitively for desktop and mobile tokens, then the
mobile flag is consulted, then null. -/
def detectPlatformFromClientHints (env : Env) : Option Platform :=
  match env.uad with
  | none => none
  | some d =>
    match d.platform with
    | some p =>
      if p.isEmpty then mobileFlagPlatform d
      else
        let pl := lowerStr p
        if containsSub pl "windows" then some Platform.DESKTOP
        else if containsSub pl "macos" || containsSub pl "mac" then some Platform.DESKTOP
        else if containsSub pl "linux" then some Platform.DESKTOP
        else if containsSub pl "android" then some Platform.MOBILE
        else if containsSub pl "ios" then some Platform.MOBILE
        else mobileFlagPlatform d
    | none => mobileFlagPlatform d

/-- The per-brand loop of detectBrowserFromClientHints: for each brand
in list order, check Edge, then Samsung, then Chrome (excluding
chromium), then Firefox; the first brand matching any of these wins. -/
def scanBrands : List (String × String) → Option (SupportedBrowser × String)
  | [] => none
  | (name, ver) :: rest =>
    let brandName := lowerStr name
    if containsSub brandName "microsoft edge" || containsSub brandName "edge" then
      some (SupportedBrowser.EDGE, ver)
    else if containsSub brandName "samsung" then
      some (SupportedBrowser.SAMSUNG, ver)
    else if containsSub brandName "chrome" && !containsSub brandName "chromium" then
      some (SupportedBrowser.CHROME, ver)
    else if containsSub brandName "firefox" then
      some (SupportedBrowser.FIREFOX, ver)
    else
      scanBrands rest

/-- detectBrowserFromClientHints of the source: when userAgentData and
its brands are exposed, scan the brands; failing that, a chromium brand
yields the unknown kind with that brand's version; otherwise null. -/
def detectBrowserFromClientHints (env : Env) : Option (SupportedBrowser × String) :=
  match env.uad with
  | none => none
  | some d =>
    match d.brands with
    | none => none
    | some brands =>
      match scanBrands brands with
      | some r => some r
      | none =>
        match brands.find? (fun b => containsSub (lowerStr b.1) "chromium") with
        | some b => some (SupportedBrowser.UNKNOWN, b.2)
        | none => none

/-- The browser/version/platform triple returned by parseUserAgent. -/
structure DetectedIdentity where
  name : SupportedBrowser
  version : String
  platform : Platform
deriving DecidableEq, Repr

/-- parseUserAgent of the source: client hints first; when they yield a
browser, the platform comes from the hints with the string heuristics
as fallback; otherwise both come from the user-agent string. -/
def parseUserAgent (env : Env) : DetectedIdentity :=
  match detectBrowserFromClientHints env with
  | some ch =>
    { name := ch.1, version := ch.2,
      platform := (detectPlatformFromClientHints env).getD (detectPlatform env.userAgent) }
  | none =>
    let browser := detectBrowser env.userAgent
    { name := browser.1, version := browser.2, platform := detectPlatform env.userAgent }

/-- getMinimumVersion of the source: the five configured kinds map to
their configured constraint string, every other kind to null. -/
def getMinimumVersion (cfg : BrowserCompatibilityConfig) : SupportedBrowser → Option String
  | SupportedBrowser.CHROME => some cfg.supportedVersions.chrome
  | SupportedBrowser.FIREFOX => some cfg.supportedVersions.firefox
  | SupportedBrowser.SAFARI => some cfg.supportedVersions.safari
  | SupportedBrowser.EDGE => some cfg.supportedVersions.edge
  | SupportedBrowser.SAMSUNG => some cfg.supportedVersions.samsung
  | SupportedBrowser.LINE => none
  | SupportedBrowser.UNKNOWN => none

/-- BrowserInfo of the source. -/
structure BrowserInfo where
  name : SupportedBrowser
  version : String
  platform : Platform
  isSupported : Bool
  minimumVersion : Option String
  userAgent : String
deriving DecidableEq, Repr

/-- getBrowserCompatibilityInfo of the source: detect, look up the
minimum version, and a null minimum means unsupported while a present
one defers to the version comparison. -/
def getBrowserCompatibilityInfo (cfg : BrowserCompatibilityConfig) (env : Env) : BrowserInfo :=
  let b := parseUserAgent env
  let minimumVersion := getMinimumVersion cfg b.name
  let isSupported :=
    match minimumVersion with
    | some m => isVersionSupported b.version m
    | none => false
  { name := b.name, version := b.version, platform := b.platform,
    isSupported := isSupported, minimumVersion := minimumVersion,
    userAgent := env.userAgent }

/-- The two navigation modes the service uses: location.replace and
assignment to location.href. -/
inductive NavMode where
  | replace
  | assign
deriving DecidableEq, Repr

/-- A requested navigation: the mode and the target URL text. -/
structure NavRequest where
  mode : NavMode
  target : String
deriving DecidableEq, Repr

/-- showIncompatibleBrowserError of the source: assign location.href to
the fixed error path on the same origin, carrying the entire original
query string. -/
def showIncompatibleBrowserError (env : Env) : NavRequest :=
  ⟨NavMode.assign,
   urlToString { origin := env.url.origin, path := "/browser-error", query := env.url.query }⟩

/-- showIncompatibleBrowserVersionError of the source; its body is
identical to showIncompatibleBrowserError. -/
def showIncompatibleBrowserVersionError (env : Env) : NavRequest :=
  ⟨NavMode.assign,
   urlToString { origin := env.url.origin, path := "/browser-error", query := env.url.query }⟩

/-- checkBrowserCompatibility of the source, returning the at most one
navigation the pass requests: the loop-prevention guard on the query
parameters, the enabled gate, the LINE handoff (guarded by a raw
substring search over the whole href), and the unsupported redirects. -/
def checkBrowserCompatibility (cfg : BrowserCompatibilityConfig) (env : Env) :
    Option NavRequest :=
  if searchParamsHas env.url "openExternalBrowser" then none
  else if !cfg.enabled then none
  else
    let browserInfo := getBrowserCompatibilityInfo cfg env
    if browserInfo.name == SupportedBrowser.LINE &&
       !containsSub (urlToString env.url) "openExternalBrowser" then
      some ⟨NavMode.replace, urlToString (searchParamsSet env.url "openExternalBrowser" "1")⟩
    else if !browserInfo.isSupported then
      if browserInfo.minimumVersion.isNone then some (showIncompatibleBrowserError env)
      else some (showIncompatibleBrowserVersionError env)
    else none

/-! Concrete fixtures used by witness theorems. -/

/-- A configuration with the gate enabled and at-least constraints for
the five configured kinds. -/
def cfgA : BrowserCompatibilityConfig :=
  ⟨true, ⟨">=90.0.0", ">=88.0.0", ">=14.0.0", ">=90.0.0", ">=15.0.0"⟩⟩

/-- An environment whose user agent is recognised as LINE (no version
fragment) and whose URL carries no loop-prevention marker. -/
def envLine : Env := ⟨⟨"https://example.com", "/p", []⟩, "Line Chrome", none⟩

/-- An environment with an unrecognised user agent and one unrelated
query parameter. -/
def envUnknownUA : Env := ⟨⟨"https://example.com", "/p", [("a", "b")]⟩, "xyz", none⟩

/-- An environment whose URL already carries the loop-prevention
query parameter. -/
def envMarked : Env :=
  ⟨⟨"https://example.com", "/p", [("openExternalBrowser", "abc")]⟩, "Line Chrome", none⟩

/-- A hints environment listing a Chrome-like brand before an Edge-like
brand. -/
def envChromeFirst : Env :=
  ⟨⟨"https://example.com", "/", []⟩, "ua",
   some ⟨some [("Google Chrome", "120"), ("Microsoft Edge", "121")], none, none⟩⟩

/-! Claims. -/

/-- Claim C1, counterexample: with the brand list Google Chrome before
Microsoft Edge, client-hints detection returns CHROME, not EDGE — the
scan is not independent of the list's order and an Edge-like brand does
not win over an earlier Chrome-like brand. -/
theorem C1_counterexample_chrome_first :
    (detectBrowserFromClientHints envChromeFirst).map Prod.fst = some SupportedBrowser.CHROME ∧
    (detectBrowserFromClientHints envChromeFirst).map Prod.fst ≠ some SupportedBrowser.EDGE := by
  decide

/-- Claim C1, amended: the brand list is scanned in list order, and for
each single brand the checks apply in the fixed priority Edge over
Samsung over Chrome (excluding chromium) over Firefox; the first brand
matching any check wins.  In particular an Edge-like head brand wins
even if it is also Chrome-like, and a Chrome-like (non-chromium,
non-Edge-like, non-Samsung-like) head brand wins over any brands later
in the list, Edge-like ones included. -/
theorem C1_hint_scan_order (u : Url) (ua : String) (p : Option String) (mb : Option Bool)
    (name ver : String) (rest : List (String × String)) :
    (containsSub (lowerStr name) "edge" = true →
      detectBrowserFromClientHints ⟨u, ua, some ⟨some ((name, ver) :: rest), p, mb⟩⟩ =
        some (SupportedBrowser.EDGE, ver)) ∧
    (containsSub (lowerStr name) "microsoft edge" = false →
     containsSub (lowerStr name) "edge" = false →
     containsSub (lowerStr name) "samsung" = false →
     containsSub (lowerStr name) "chrome" = true →
     containsSub (lowerStr name) "chromium" = false →
      detectBrowserFromClientHints ⟨u, ua, some ⟨some ((name, ver) :: rest), p, mb⟩⟩ =
        some (SupportedBrowser.CHROME, ver)) := by
  constructor
  · intro h
    simp [detectBrowserFromClientHints, scanBrands, h]
  · intro h0 h1 h2 h3 h4
    simp [detectBrowserFromClientHints, scanBrands, h0, h1, h2, h3, h4]

/-- Claim C1, witness for the amended statement: a Chrome-like first
brand yields CHROME with that brand's version even though an Edge-like
brand follows. -/
theorem C1_hint_scan_order_witness :
    detectBrowserFromClientHints envChromeFirst = some (SupportedBrowser.CHROME, "120") :=
  (C1_hint_scan_order ⟨"https://example.com", "/", []⟩ "ua" none none
      "Google Chrome" "120" [("Microsoft Edge", "121")]).2
    (by decide) (by decide) (by decide) (by decide) (by decide)

/-- Claim C2: when the current URL carries the openExternalBrowser
query parameter, the compatibility pass requests no navigation at all,
for every configuration and environment. -/
theorem C2_guard_suppresses_navigation (cfg : BrowserCompatibilityConfig) (env : Env)
    (h : searchParamsHas env.url "openExternalBrowser" = true) :
    checkBrowserCompatibility cfg env = none := by
  simp [checkBrowserCompatibility, h]

/-- Claim C2, witness: a concrete marked URL yields no navigation. -/
theorem C2_guard_suppresses_navigation_witness :
    checkBrowserCompatibility cfgA envMarked = none :=
  C2_guard_suppresses_navigation cfgA envMarked (by decide)

/-- Claim C3: with the gate enabled, no loop-prevention marker as a
query parameter and none as a substring of the href, and the detected
kind LINE, the pass requests exactly a replace-navigation to the
current URL with openExternalBrowser set to the sentinel value 1. -/
theorem C3_line_handoff (cfg : BrowserCompatibilityConfig) (env : Env)
    (he : cfg.enabled = true)
    (hq : searchParamsHas env.url "openExternalBrowser" = false)
    (hs : containsSub (urlToString env.url) "openExternalBrowser" = false)
    (hn : (getBrowserCompatibilityInfo cfg env).name = SupportedBrowser.LINE) :
    checkBrowserCompatibility cfg env =
      some ⟨NavMode.replace, urlToString (searchParamsSet env.url "openExternalBrowser" "1")⟩ := by
  simp [checkBrowserCompatibility, hq, he, hn, hs]

/-- Claim C3, witness: a concrete LINE environment produces the replace
request with the marker appended. -/
theorem C3_line_handoff_witness :
    checkBrowserCompatibility cfgA envLine =
      some ⟨NavMode.replace, urlToString (searchParamsSet envLine.url "openExternalBrowser" "1")⟩ :=
  C3_line_handoff cfgA envLine rfl (by decide) (by decide) (by decide)

/-- Claim C4: with the gate enabled, no loop-prevention marker, a
detected kind other than LINE and an unsupported verdict, the pass
requests exactly an assignment navigation to the fixed error path
carrying the entire original query string unchanged. -/
theorem C4_error_redirect (cfg : BrowserCompatibilityConfig) (env : Env)
    (he : cfg.enabled = true)
    (hq : searchParamsHas env.url "openExternalBrowser" = false)
    (hn : (getBrowserCompatibilityInfo cfg env).name ≠ SupportedBrowser.LINE)
    (hu : (getBrowserCompatibilityInfo cfg env).isSupported = false) :
    checkBrowserCompatibility cfg env =
      some ⟨NavMode.assign,
        urlToString { origin := env.url.origin, path := "/browser-error",
                      query := env.url.query }⟩ := by
  simp [checkBrowserCompatibility, showIncompatibleBrowserError,
    showIncompatibleBrowserVersionError, hq, he, hu, hn]

/-- Claim C4, witness: a concrete unrecognised browser is redirected by
assignment to the error path with the original query preserved. -/
theorem C4_error_redirect_witness :
    checkBrowserCompatibility cfgA envUnknownUA =
      some ⟨NavMode.assign,
        urlToString { origin := envUnknownUA.url.origin, path := "/browser-error",
                      query := envUnknownUA.url.query }⟩ :=
  C4_error_redirect cfgA envUnknownUA rfl (by decide) (by decide) (by decide)

/-- Claim C5: the version comparison is fail-open — whenever the body
inside the try block throws, the comparison catches the error and
returns true, for all current and minimum version strings. -/
theorem C5_fail_open (body : String → String → Except String Bool)
    (c m e : String) (h : body c m = Except.error e) :
    isVersionSupportedWith body c m = true := by
  unfold isVersionSupportedWith
  split
  · rfl
  · rw [h]

/-- Claim C5, witness: a body that throws is resolved as supported. -/
theorem C5_fail_open_witness :
    isVersionSupportedWith (fun _ _ => Except.error "boom") "1.0.0" "2.0.0" = true :=
  C5_fail_open (fun _ _ => Except.error "boom") "1.0.0" "2.0.0" "boom" rfl

/-- Claim C6: minimumVersion of the produced BrowserInfo is null
exactly when the detected kind is LINE or UNKNOWN (the kinds with no
configured entry), and a null minimumVersion forces isSupported to be
false. -/
theorem C6_minimum_version_invariant (cfg : BrowserCompatibilityConfig) (env : Env) :
    ((getBrowserCompatibilityInfo cfg env).minimumVersion = none ↔
      ((getBrowserCompatibilityInfo cfg env).name = SupportedBrowser.LINE ∨
       (getBrowserCompatibilityInfo cfg env).name = SupportedBrowser.UNKNOWN)) ∧
    ((getBrowserCompatibilityInfo cfg env).minimumVersion = none →
      (getBrowserCompatibilityInfo cfg env).isSupported = false) := by
  cases h : (parseUserAgent env).name <;>
    simp [getBrowserCompatibilityInfo, getMinimumVersion, h]

/-- Claim C6, witness: for an unrecognised browser the minimum version
is null and the verdict is unsupported. -/
theorem C6_minimum_version_invariant_witness :
    (getBrowserCompatibilityInfo cfgA envUnknownUA).isSupported = false :=
  (C6_minimum_version_invariant cfgA envUnknownUA).2 (by decide)

/-- Claim C7, counterexample: parseVersion does not pad to three
components — on the two-fragment input 1.2 it returns a two-element
list. -/
theorem C7_counterexample_no_padding :
    parseVersion "1.2" = [1, 2] ∧ (parseVersion "1.2").length ≠ 3 := by
  decide

/-- Claim C7, amended: parseVersion splits on the dot, strips non-digit
characters from each fragment and maps unparseable fragments to 0,
returning one non-negative integer per fragment; it neither pads nor
truncates (the padding to three components happens later, inside
compareVersions). -/
theorem C7_parseVersion_shape (v : String) :
    (parseVersion v).length = (splitOnDot v).length ∧
    ∀ x ∈ parseVersion v, 0 ≤ x := by
  constructor
  · simp [parseVersion]
  · intro x hx
    simp only [parseVersion, List.mem_map] at hx
    obtain ⟨a, -, ha⟩ := hx
    subst ha
    by_cases hemp : (a.data.filter Char.isDigit).isEmpty <;> simp [hemp]

/-- Claim C7, witness for the amended statement at the input 1.2. -/
theorem C7_parseVersion_shape_witness :
    (parseVersion "1.2").length = (splitOnDot "1.2").length ∧ (0 : Int) ≤ 1 :=
  ⟨(C7_parseVersion_shape "1.2").1, (C7_parseVersion_shape "1.2").2 1 (by decide)⟩

/-- Claim C8: under the caret operator, a strictly smaller current
major is unsupported, a strictly larger current major is supported
regardless of minor and patch, and with equal majors support holds
exactly when the minor/patch pair is lexicographically at least the
constraint's. -/
theorem C8_caret_semantics (a b c d e f : Int) :
    (a < d → compareVersions [a, b, c] [d, e, f] "^" = false) ∧
    (d < a → compareVersions [a, b, c] [d, e, f] "^" = true) ∧
    (a = d → (compareVersions [a, b, c] [d, e, f] "^" = true ↔
      e < b ∨ (e = b ∧ f ≤ c))) := by
  have hev : compareVersions [a, b, c] [d, e, f] "^" =
      (if a ≠ d then decide (a > d)
       else if b > e then true
       else if b < e then false
       else decide (c ≥ f)) := rfl
  refine ⟨?_, ?_, ?_⟩
  · intro h1
    rw [hev, if_pos (by omega : a ≠ d)]
    simp only [decide_eq_false_iff_not]
    omega
  · intro h1
    rw [hev, if_pos (by omega : a ≠ d)]
    simp only [decide_eq_true_eq]
    omega
  · intro h1
    rw [hev, if_neg (by omega : ¬a ≠ d)]
    split_ifs <;> simp <;> omega

/-- Claim C8, witness: current major below the constraint major is
rejected under the caret operator. -/
theorem C8_caret_semantics_witness :
    compareVersions [1, 9, 9] [2, 0, 0] "^" = false :=
  (C8_caret_semantics 1 9 9 2 0 0).1 (by decide)

/-- Claim C9: the desktop tokens are tested before the mobile tokens,
so any user agent containing Windows, Linux, Macintosh or Mac OS is
classified as desktop no matter which mobile tokens it also contains. -/
theorem C9_desktop_tokens_win (ua : String)
    (h : (containsSub ua "Windows" || containsSub ua "Linux" ||
          containsSub ua "Macintosh" || containsSub ua "Mac OS") = true) :
    detectPlatform ua = Platform.DESKTOP := by
  simp only [Bool.or_eq_true] at h
  rcases h with ((hw | hw) | hw) | hw <;> simp [detectPlatform, hw]

/-- Claim C9, witness: a typical Android user agent containing the
token Linux is classified as desktop despite its mobile tokens. -/
theorem C9_desktop_tokens_win_witness :
    detectPlatform "Mozilla/5.0 (Linux; Android 10) Mobile" = Platform.DESKTOP :=
  C9_desktop_tokens_win "Mozilla/5.0 (Linux; Android 10) Mobile" (by decide)

/-- Claim C10: when the first detector whose condition holds finds no
occurrence of its version pattern, the result is that detector's
browser with the zero version, for each of the six detectors. -/
theorem C10_missing_version_pattern (ua : String) :
    (lineCond ua = true → matchVer "Line/" 3 ua = none →
      detectBrowser ua = (SupportedBrowser.LINE, "0.0.0")) ∧
    (lineCond ua = false → safariCond ua = true → matchVer "Version/" 2 ua = none →
      detectBrowser ua = (SupportedBrowser.SAFARI, "0.0.0")) ∧
    (lineCond ua = false → safariCond ua = false → chromeCond ua = true →
      matchVer "Chrome/" 3 ua = none →
      detectBrowser ua = (SupportedBrowser.CHROME, "0.0.0")) ∧
    (lineCond ua = false → safariCond ua = false → chromeCond ua = false →
      edgeCond ua = true → matchVer "Edg/" 3 ua = none →
      detectBrowser ua = (SupportedBrowser.EDGE, "0.0.0")) ∧
    (lineCond ua = false → safariCond ua = false → chromeCond ua = false →
      edgeCond ua = false → firefoxCond ua = true → matchVer "Firefox/" 2 ua = none →
      detectBrowser ua = (SupportedBrowser.FIREFOX, "0.0.0")) ∧
    (lineCond ua = false → safariCond ua = false → chromeCond ua = false →
      edgeCond ua = false → firefoxCond ua = false → samsungCond ua = true →
      matchVer "SamsungBrowser/" 2 ua = none →
      detectBrowser ua = (SupportedBrowser.SAMSUNG, "0.0.0")) := by
  refine ⟨?_, ?_, ?_, ?_, ?_, ?_⟩ <;>
    intros <;> simp [detectBrowser, twoPartVersion, *]

/-- Claim C10, witness: a user agent containing Line and Chrome but no
Line version fragment yields LINE with the zero version. -/
theorem C10_missing_version_pattern_witness :
    detectBrowser "Line Chrome" = (SupportedBrowser.LINE, "0.0.0") :=
  (C10_missing_version_pattern "Line Chrome").1 (by decide) (by decide)

end BrowserCompat
